import Mathlib

/-!
Shallow embedding of the mock-webhooks repository core:
the capture pipeline (`src/app/webhooks/[[...slug]]/route.ts`, first
`handleWebhook`), the security guards (`src/lib/security.ts`), the in-memory
storage backend (`src/lib/storage/memory.ts`), the log routes
(`src/app/api/logs/route.ts`, `src/lib/store.ts`) and the test/replay
endpoint. JavaScript numbers are modelled as `Int` (all the relevant code
paths stay integral), JS strings as `String`, maps/objects as association
lists, and fallible/external builtins (`JSON.parse`, `fetch`) as explicit
parameters.
-/

namespace MockWebhooks

/-- A parsed JSON value (the possible results of the JS `JSON.parse`). -/
inductive JsonValue where
  | null
  | bool (b : Bool)
  | num (n : Int)
  | str (s : String)
  | arr (xs : List JsonValue)
  | obj (fields : List (String × JsonValue))
  deriving Repr

/-- The `body` field of a log record: `null`, a parsed JSON value, a
form-data mapping, or a raw text string (tagged union by content type,
`route.ts` lines 174-241). -/
inductive BodyValue where
  | null
  | json (j : JsonValue)
  | form (entries : List (String × String))
  | text (s : String)
  deriving Repr

/-- `WebhookLog` from `src/lib/store.ts` (second interface, with the
optional `webhookId`). -/
structure WebhookLog where
  id : String
  timestamp : String
  method : String
  path : String
  url : String
  statusCode : Int
  timeout : Option Int := none
  startTime : Option String := none
  endTime : Option String := none
  headers : List (String × String) := []
  queryParams : List (String × String) := []
  body : BodyValue := .null
  webhookId : Option String := none
  deriving Repr

/-! ### JavaScript primitives used by the source -/

/-- JS truthiness filter for an optional string: `null`/`undefined` and the
empty string are falsy. -/
def truthy (o : Option String) : Option String :=
  match o with
  | some s => if s == "" then none else some s
  | none => none

/-- JS `parseInt(s, 10)`: skip leading whitespace, optional sign, then the
longest prefix of decimal digits; `none` models `NaN` (no digits). -/
def parseIntJS (s : String) : Option Int :=
  let cs := s.toList.dropWhile (fun c => c.isWhitespace)
  let signRest : Int × List Char :=
    match cs with
    | '-' :: r => (-1, r)
    | '+' :: r => (1, r)
    | r => (1, r)
  let ds := signRest.2.takeWhile (fun c => c.isDigit)
  if ds.isEmpty then none
  else some (signRest.1 * (ds.foldl (fun a c => a * 10 + ((c.toNat : Int) - 48)) 0))

/-- `pat` is a character-wise prefix of `s`. -/
def charsPrefix : List Char → List Char → Bool
  | [], _ => true
  | _ :: _, [] => false
  | a :: as, b :: bs => a == b && charsPrefix as bs

/-- `pat` occurs contiguously somewhere in `s`. -/
def charsInfix (pat : List Char) : List Char → Bool
  | [] => charsPrefix pat []
  | b :: bs => charsPrefix pat (b :: bs) || charsInfix pat bs

/-- JS `String.prototype.includes` (substring test). -/
def strIncludes (s pat : String) : Bool :=
  charsInfix pat.toList s.toList

/-- JS `String.prototype.startsWith`. -/
def strStartsWith (s pat : String) : Bool :=
  charsPrefix pat.toList s.toList

/-- JS `String.prototype.toLowerCase` (ASCII, which covers header names). -/
def strToLower (s : String) : String :=
  (s.toList.map Char.toLower).asString

/-- First value bound to a key in an association list (models
`URLSearchParams.get` / `Headers.get`; header keys are stored
lower-cased as the Fetch API does). -/
def lookupParam (q : List (String × String)) (k : String) : Option String :=
  (q.find? (fun p => p.1 == k)).map Prod.snd

/-! ### `src/lib/security.ts` -/

/-- `SECURITY_CONFIG` (values are env-configurable; the defaults are the
source's fallback constants). -/
structure SecurityConfig where
  RATE_LIMIT_REQUESTS : Int := 100
  RATE_LIMIT_WINDOW_MS : Int := 60000
  MAX_BODY_SIZE : Int := 2097152
  MAX_JSON_SIZE : Int := 2097152
  MAX_TEXT_SIZE : Int := 2097152
  MAX_TIMEOUT_SECONDS : Int := 60
  MAX_CONCURRENT_TIMEOUT_REQUESTS : Int := 10
  deriving Repr, DecidableEq

structure RateLimitEntry where
  count : Int
  resetTime : Int
  deriving Repr, DecidableEq

/-- The `rateLimitStore` map, as an association list. -/
abbrev RateLimitStore := List (String × RateLimitEntry)

/-- `Map.get`. -/
def rlGet (store : RateLimitStore) (k : String) : Option RateLimitEntry :=
  (store.find? (fun p => p.1 == k)).map Prod.snd

/-- `Map.set`: replace the binding if present, otherwise append. -/
def rlSet (store : RateLimitStore) (k : String) (v : RateLimitEntry) : RateLimitStore :=
  if store.any (fun p => p.1 == k) then
    store.map (fun p => if p.1 == k then (k, v) else p)
  else store ++ [(k, v)]

structure RateLimitResult where
  allowed : Bool
  remaining : Int
  resetTime : Int
  deriving Repr, DecidableEq

/-- `checkRateLimit` (security.ts lines 49-80), with the ambient mutable map
and `Date.now()` made explicit. Returns the result and the updated store. -/
def checkRateLimit (cfg : SecurityConfig) (store : RateLimitStore)
    (identifier : String) (now : Int) : RateLimitResult × RateLimitStore :=
  match rlGet store identifier with
  | none =>
      (⟨true, cfg.RATE_LIMIT_REQUESTS - 1, now + cfg.RATE_LIMIT_WINDOW_MS⟩,
       rlSet store identifier ⟨1, now + cfg.RATE_LIMIT_WINDOW_MS⟩)
  | some entry =>
      if now > entry.resetTime then
        (⟨true, cfg.RATE_LIMIT_REQUESTS - 1, now + cfg.RATE_LIMIT_WINDOW_MS⟩,
         rlSet store identifier ⟨1, now + cfg.RATE_LIMIT_WINDOW_MS⟩)
      else if entry.count ≥ cfg.RATE_LIMIT_REQUESTS then
        (⟨false, 0, entry.resetTime⟩, store)
      else
        (⟨true, cfg.RATE_LIMIT_REQUESTS - (entry.count + 1), entry.resetTime⟩,
         rlSet store identifier ⟨entry.count + 1, entry.resetTime⟩)

/-- `getClientIP` (security.ts lines 85-99). -/
def getClientIP (headers : List (String × String)) : String :=
  match truthy (lookupParam headers "x-forwarded-for") with
  | some fwd => ((fwd.splitOn ",").headD "").trim
  | none =>
      match truthy (lookupParam headers "x-real-ip") with
      | some ip => ip
      | none => "unknown"

/-- `canStartTimeoutRequest` (security.ts line 106-108). -/
def canStartTimeoutRequest (cfg : SecurityConfig) (activeTimeoutRequests : Int) : Bool :=
  activeTimeoutRequests < cfg.MAX_CONCURRENT_TIMEOUT_REQUESTS

/-- `startTimeoutRequest` (security.ts line 110-112): unconditional increment. -/
def startTimeoutRequest (activeTimeoutRequests : Int) : Int :=
  activeTimeoutRequests + 1

/-- `endTimeoutRequest` (security.ts lines 114-118): decrement only when the
counter is strictly positive. -/
def endTimeoutRequest (activeTimeoutRequests : Int) : Int :=
  if activeTimeoutRequests > 0 then activeTimeoutRequests - 1 else activeTimeoutRequests

/-- `validatePayloadSize` (security.ts lines 123-125). -/
def validatePayloadSize (size : Int) (maxSize : Int) : Bool :=
  size ≤ maxSize

/-- `getContentLength` (security.ts lines 130-135). -/
def getContentLength (headers : List (String × String)) : Option Int :=
  match truthy (lookupParam headers "content-length") with
  | none => none
  | some s => parseIntJS s

/-! ### `src/lib/storage/memory.ts` — the in-memory backend

The module-level `webhookLogs` array is passed explicitly; array mutation
becomes returning the new list. The front of the list is the newest
insertion (`unshift`). -/

/-- `MemoryStorage.addLog` (memory.ts lines 11-18): `unshift` then trim to
the first `MAX_LOGS` entries (`splice(MAX_LOGS)`). -/
def addLog (MAX_LOGS : Nat) (webhookLogs : List WebhookLog) (log : WebhookLog) :
    List WebhookLog :=
  let logs' := log :: webhookLogs
  if logs'.length > MAX_LOGS then logs'.take MAX_LOGS else logs'

/-- `MemoryStorage.getLogs` (memory.ts lines 20-25): optional filter by
`webhookId`, no reordering. -/
def getLogs (webhookLogs : List WebhookLog) (webhookId : Option String := none) :
    List WebhookLog :=
  match webhookId with
  | some wid => webhookLogs.filter (fun (l : WebhookLog) => l.webhookId == some wid)
  | none => webhookLogs

structure PaginatedLogs where
  logs : List WebhookLog
  total : Nat
  page : Int
  pageSize : Nat
  totalPages : Nat
  hasMore : Bool
  deriving Repr

/-- `MemoryStorage.getLogsPaginated` (memory.ts lines 27-58). `pageSize` is
kept as a `Nat`; for `pageSize ≥ 1` the `Math.ceil(total / pageSize)` of the
source equals `(total + pageSize - 1) / pageSize`. -/
def getLogsPaginated (webhookLogs : List WebhookLog) (page : Int) (pageSize : Nat)
    (webhookId : Option String := none) : PaginatedLogs :=
  let filteredLogs := match webhookId with
    | some wid => webhookLogs.filter (fun (l : WebhookLog) => l.webhookId == some wid)
    | none => webhookLogs
  let total := filteredLogs.length
  let totalPages := (total + pageSize - 1) / pageSize
  let pageNum : Int := max 1 (min page (totalPages : Int))
  let startIndex : Nat := (pageNum - 1).toNat * pageSize
  let paginatedLogs := (filteredLogs.drop startIndex).take pageSize
  { logs := paginatedLogs
    total := total
    page := pageNum
    pageSize := pageSize
    totalPages := totalPages
    hasMore := pageNum < (totalPages : Int) }

/-- `MemoryStorage.getLogById` (memory.ts lines 60-62). -/
def getLogById (webhookLogs : List WebhookLog) (id : String) : Option WebhookLog :=
  webhookLogs.find? (fun l => l.id == id)

/-- `MemoryStorage.deleteLog` (memory.ts lines 64-71). -/
def deleteLog (webhookLogs : List WebhookLog) (id : String) :
    Bool × List WebhookLog :=
  match webhookLogs.findIdx? (fun l => l.id == id) with
  | some i => (true, webhookLogs.eraseIdx i)
  | none => (false, webhookLogs)

/-- The backward splice loop of `MemoryStorage.clearLogs` (memory.ts lines
74-80): remove every record whose `webhookId` equals `wid`, preserving the
order of the rest. -/
def clearLogsLoop (wid : String) : List WebhookLog → List WebhookLog
  | [] => []
  | l :: rest =>
      if l.webhookId == some wid then clearLogsLoop wid rest
      else l :: clearLogsLoop wid rest

/-- `MemoryStorage.clearLogs` (memory.ts lines 73-84). -/
def clearLogs (webhookLogs : List WebhookLog) (webhookId : Option String := none) :
    List WebhookLog :=
  match webhookId with
  | some wid => clearLogsLoop wid webhookLogs
  | none => []

/-! ### `src/lib/store.ts` and `src/app/api/logs/route.ts` -/

/-- `clearWebhookLogs` (store.ts lines 131-134): forwards to
`storage.clearLogs()` with NO `webhookId` argument. -/
def clearWebhookLogs (webhookLogs : List WebhookLog) : List WebhookLog :=
  clearLogs webhookLogs none

/-- The `DELETE /api/logs` handler (route.ts lines 40-48): after the auth
check it calls `clearWebhookLogs()`; the `webhookId` query parameter of the
request is never read. Returns (HTTP status, resulting store). -/
def deleteLogsRoute (authOk : Bool) (webhookLogs : List WebhookLog)
    (webhookIdParam : Option String) : Int × List WebhookLog :=
  if !authOk then (401, webhookLogs)
  else
    let _ := webhookIdParam
    (200, clearWebhookLogs webhookLogs)

/-! ### The test endpoint's replay action (`src/unnamed/part_002`, `POST`) -/

/-- What the `fetch` to the replay target produced. -/
structure FetchResponse where
  status : Int
  statusText : String
  headers : List (String × String)
  bodyText : String

/-- The test endpoint's response to a replay request, projected to the
fields the claims are about. -/
structure ReplayResult where
  /-- HTTP status of the test endpoint's own response. -/
  status : Int
  success : Bool
  error : Option String
  message : Option String
  replayStatus : Option Int
  replayBody : Option BodyValue

/-- The replay fetch block of the test endpoint (part_002 lines 38-81):
the outbound `fetch` is an external effect, passed as its outcome
(`.ok` response or `.error message` for a network failure). On success the
replay's status and parsed body are echoed (HTTP 200 by default); on fetch
failure the catch block returns a structured `success:false` payload with
`{ status: 500 }`. -/
def replayFetchResult (jsonParse : String → Option JsonValue)
    (fetchOutcome : Except String FetchResponse) : ReplayResult :=
  match fetchOutcome with
  | .ok r =>
      let responseBody : BodyValue :=
        match jsonParse r.bodyText with
        | some j => .json j
        | none => .text r.bodyText
      { status := 200
        success := true
        error := none
        message := none
        replayStatus := some r.status
        replayBody := some responseBody }
  | .error e =>
      { status := 500
        success := false
        error := some "Failed to replay webhook"
        message := some e
        replayStatus := none
        replayBody := none }

/-! ### The capture pipeline
(`src/app/webhooks/[[...slug]]/route.ts`, `handleWebhook`, lines 56-304) -/

/-- `extractWebhookIdFromPath` (`src/lib/webhooks`): the regex
`/^\/webhooks\/(webhook_[^\/]+)/` — the first path segment under
`/webhooks/` must start with `webhook_` followed by at least one further
character. -/
def extractWebhookIdFromPath (path : String) : Option String :=
  if strStartsWith path "/webhooks/" then
    let seg := ((path.toList.drop 10).takeWhile (fun c => c != '/')).asString
    if strStartsWith seg "webhook_" && seg.length > 8 then some seg else none
  else none

/-- JS `Array.prototype.join("/")`. -/
def joinSlash : List String → String
  | [] => ""
  | [s] => s
  | s :: rest => s ++ "/" ++ joinSlash rest

/-- `buildWebhookPath` (route.ts lines 105-108): join the wildcard segments
under `/webhooks`; an empty segment list maps to the bare namespace. -/
def buildWebhookPath (slug : List String) : String :=
  if slug.length > 0 then "/webhooks/" ++ joinSlash slug
  else "/webhooks"

/-- Lines 121-128: `statusCodeParam ? parseInt(statusCodeParam, 10) : 200`,
then the range check `statusCode >= 100 && statusCode <= 599 ? statusCode :
200` (an inner `none` models `NaN`, which fails the comparison). -/
def validStatusCodeOf (statusCodeParam : Option String) : Int :=
  let statusCode : Option Int :=
    match truthy statusCodeParam with
    | some s => parseIntJS s
    | none => some 200
  match statusCode with
  | some n => if 100 ≤ n ∧ n ≤ 599 then n else 200
  | none => 200

/-- Lines 122-133: `timeoutParam ? parseInt(timeoutParam, 10) : 0`, then
`timeoutSeconds >= 0 && timeoutSeconds <= MAX_TIMEOUT_SECONDS ?
timeoutSeconds : 0`. -/
def validTimeoutSecondsOf (cfg : SecurityConfig) (timeoutParam : Option String) : Int :=
  let timeoutSeconds : Option Int :=
    match truthy timeoutParam with
    | some s => parseIntJS s
    | none => some 0
  match timeoutSeconds with
  | some n => if 0 ≤ n ∧ n ≤ cfg.MAX_TIMEOUT_SECONDS then n else 0
  | none => 0

/-- The `try { startTime = ...; await sleep; endTime = ... } finally
{ endTimeoutRequest() }` block (route.ts lines 155-164), entered after
`startTimeoutRequest()` (line 156). `sleepRaises` models a failure during
the wait; the `finally` clause runs `endTimeoutRequest` on both exit paths.
Returns the counter after the window and whether the exception propagates. -/
def delayWindowBlock (activeTimeoutRequests : Int) (sleepRaises : Bool) : Int × Bool :=
  let counterDuringSleep := startTimeoutRequest activeTimeoutRequests
  (endTimeoutRequest counterDuringSleep, sleepRaises)

/-- The Content-Length pre-check condition (route.ts lines 92-93):
`contentLength !== null && !validatePayloadSize(contentLength)`. -/
def preSizeReject (cfg : SecurityConfig) (headers : List (String × String)) : Bool :=
  match getContentLength headers with
  | some len => !validatePayloadSize len cfg.MAX_BODY_SIZE
  | none => false

/-- One inbound request, with the external/ambient inputs of the handler
made explicit fields. -/
structure CaptureRequest where
  url : String
  slug : List String
  /-- `request.nextUrl.searchParams`, in order. -/
  query : List (String × String) := []
  /-- `request.headers`, keys lower-cased as the Fetch API stores them. -/
  headers : List (String × String) := []
  /-- What `request.text()` yields when the body stream is read. -/
  bodyText : String := ""
  /-- What `request.formData()` yields (a `File` value is replaced by a
  stand-in string of the same length as its size estimate). -/
  formEntries : List (String × String) := []
  /-- `request.text()` / `request.formData()` throws when reading. -/
  bodyReadFails : Bool := false
  /-- Outcome of `validateApiKey(request)` (`src/lib/auth`). -/
  authOk : Bool := true

/-- Ambient inputs of one handler run: clock values, generated id, the
`JSON.parse` builtin, whether the sleep raises, and the storage cap. -/
structure Env where
  now : Int := 0
  timestamp : String := ""
  logId : String := ""
  startTime : String := ""
  endTime : String := ""
  jsonParse : String → Option JsonValue := fun _ => none
  sleepRaises : Bool := false
  maxLogs : Nat := 1000

/-- The process-wide mutable state the handler touches. -/
structure ServerState where
  rateStore : RateLimitStore := []
  activeTimeoutRequests : Int := 0
  logs : List WebhookLog := []

/-- The handler's observable outcome: HTTP status of the response, the
`success` flag of the JSON body, the record passed to `addWebhookLog` (if
any), the echoed `data.body`, the `maxSize` field of a 413 body, and the
state after the run. -/
structure HandlerResult where
  status : Int
  success : Bool
  storedLog : Option WebhookLog := none
  echoedBody : Option BodyValue := none
  maxSize : Option Int := none
  finalState : ServerState

/-- Outcome of the body-capture block (route.ts lines 174-241). -/
inductive BodyCapture where
  | tooLarge (maxSize : Int)
  | ok (body : BodyValue)

/-- Whether body capture produced a body (rather than a 413 early exit). -/
def BodyCapture.isOk : BodyCapture → Bool
  | .ok _ => true
  | .tooLarge _ => false

/-- Body capture, content-type driven (route.ts lines 174-241): JSON reads
text, size-checks against `MAX_JSON_SIZE`, then parses with parse failure
mapped to `null`; form data is size-estimated against `MAX_BODY_SIZE`;
anything else is raw text checked against `MAX_TEXT_SIZE`. A throw while
reading the body is caught and treated as `null` (lines 237-241). -/
def captureBody (cfg : SecurityConfig) (env : Env) (req : CaptureRequest)
    (contentType : String) : BodyCapture :=
  if req.bodyReadFails then .ok .null
  else if strIncludes contentType "application/json" then
    if !validatePayloadSize (req.bodyText.length : Int) cfg.MAX_JSON_SIZE then
      .tooLarge cfg.MAX_JSON_SIZE
    else
      match env.jsonParse req.bodyText with
      | some j => .ok (.json j)
      | none => .ok .null
  else if strIncludes contentType "application/x-www-form-urlencoded"
      || strIncludes contentType "multipart/form-data" then
    let estimatedSize : Int :=
      ((req.formEntries.map (fun p => p.1.length + p.2.length)).sum : Nat)
    if !validatePayloadSize estimatedSize cfg.MAX_BODY_SIZE then
      .tooLarge cfg.MAX_BODY_SIZE
    else .ok (.form req.formEntries)
  else
    if !validatePayloadSize (req.bodyText.length : Int) cfg.MAX_TEXT_SIZE then
      .tooLarge cfg.MAX_TEXT_SIZE
    else .ok (.text req.bodyText)

/-- `handleWebhook` (route.ts lines 56-304), sequentialised: guards in
source order, then the delay window, header filtering, body capture,
persistence and the response. A `sleepRaises` failure escapes the inner
`finally` (which still releases the counter) and is caught by the outer
`catch` (lines 293-303), producing the generic 500. -/
def handleWebhook (cfg : SecurityConfig) (env : Env) (st : ServerState)
    (req : CaptureRequest) (method : String) : HandlerResult :=
  -- Authentication check (lines 62-65)
  if !req.authOk then
    { status := 401, success := false, finalState := st }
  else
    -- Rate limiting check (lines 67-89)
    let rateCheck := checkRateLimit cfg st.rateStore (getClientIP req.headers) env.now
    let st1 : ServerState := { st with rateStore := rateCheck.2 }
    if !rateCheck.1.allowed then
      { status := 429, success := false, finalState := st1 }
    else
      -- Payload size pre-check against Content-Length (lines 91-103)
      if preSizeReject cfg req.headers then
        { status := 413, success := false, maxSize := some cfg.MAX_BODY_SIZE
          finalState := st1 }
      else
        let path := buildWebhookPath req.slug
        let webhookId := extractWebhookIdFromPath path
        let validStatusCode := validStatusCodeOf (lookupParam req.query "statusCode")
        let validTimeoutSeconds := validTimeoutSecondsOf cfg (lookupParam req.query "timeout")
        -- Concurrency guard for delayed responses (lines 135-145)
        if validTimeoutSeconds > 0
            && !canStartTimeoutRequest cfg st1.activeTimeoutRequests then
          { status := 503, success := false, finalState := st1 }
        else
          -- Delay window (lines 150-164)
          let windowRun : Int × Bool :=
            if validTimeoutSeconds > 0 then
              delayWindowBlock st1.activeTimeoutRequests env.sleepRaises
            else (st1.activeTimeoutRequests, false)
          let st2 : ServerState := { st1 with activeTimeoutRequests := windowRun.1 }
          if windowRun.2 then
            -- the wait raised: outer catch (lines 293-303)
            { status := 500, success := false, finalState := st2 }
          else
            let startTime : Option String :=
              if validTimeoutSeconds > 0 then some env.startTime else none
            let endTime : Option String :=
              if validTimeoutSeconds > 0 then some env.endTime else none
            -- Header capture, excluding x-vercel* (lines 166-172)
            let capturedHeaders := req.headers.filter
              (fun p => !(strStartsWith (strToLower p.1) "x-vercel"))
            let contentType := (lookupParam req.headers "content-type").getD ""
            match captureBody cfg env req contentType with
            | .tooLarge m =>
                { status := 413, success := false, maxSize := some m, finalState := st2 }
            | .ok body =>
                -- Persist (lines 243-261) and respond (lines 263-292)
                let log : WebhookLog :=
                  { id := env.logId
                    timestamp := env.timestamp
                    method := method
                    path := path
                    url := req.url
                    statusCode := validStatusCode
                    timeout := if validTimeoutSeconds > 0 then some validTimeoutSeconds else none
                    startTime := startTime
                    endTime := endTime
                    headers := capturedHeaders
                    queryParams := req.query
                    body := body
                    webhookId := webhookId }
                let st3 : ServerState := { st2 with logs := addLog env.maxLogs st2.logs log }
                { status := validStatusCode
                  success := true
                  storedLog := some log
                  echoedBody := some body
                  finalState := st3 }

/-! ### Spec-side definitions (used to compare the code against the
spec's wording) -/

/-- Spec side (C1/C9): the response status the spec predicts from the
`statusCode` query value — the parsed integer when it lies in `[100,599]`,
and `200` for every other value (non-numeric, out of range, or absent). -/
def specStatusCode (statusCodeParam : Option String) : Int :=
  match statusCodeParam with
  | none => 200
  | some s =>
      match parseIntJS s with
      | some n => if 100 ≤ n ∧ n ≤ 599 then n else 200
      | none => 200

/-- Lexicographic order on character lists (how ISO-8601 timestamp strings
compare, consistent with chronological order). -/
def charsLe : List Char → List Char → Bool
  | [], _ => true
  | _ :: _, [] => false
  | a :: as, b :: bs => if a = b then charsLe as bs else decide (a < b)

/-- Spec side (C7): timestamp comparison. -/
def tsLe (a b : String) : Bool := charsLe a.toList b.toList

/-- Spec side (C7): "ordered newest-first by timestamp" — every record
comes no later in the list than any record with a strictly smaller
timestamp. -/
def sortedNewestFirst (l : List WebhookLog) : Prop :=
  l.Pairwise (fun a b => tsLe b.timestamp a.timestamp = true)

instance (l : List WebhookLog) : Decidable (sortedNewestFirst l) := by
  unfold sortedNewestFirst
  infer_instance

/-- Spec side (C10): the two operations ever applied to the
concurrent-delay counter. -/
inductive CounterOp where
  | startReq
  | endReq
  deriving Repr, DecidableEq

/-- Applying one counter operation (`startTimeoutRequest` /
`endTimeoutRequest` from security.ts). -/
def counterStep (c : Int) : CounterOp → Int
  | .startReq => startTimeoutRequest c
  | .endReq => endTimeoutRequest c

/-- A concrete record, for witnesses and counterexamples. -/
def sampleLog (id : String) (timestamp : String := "2024-01-01T00:00:00.000Z")
    (webhookId : Option String := none) : WebhookLog :=
  { id := id
    timestamp := timestamp
    method := "POST"
    path := "/webhooks"
    url := "http://localhost/webhooks"
    statusCode := 200
    webhookId := webhookId }

/-! ### Helper lemmas about the in-memory store -/

theorem addLog_eq_take (MAX : Nat) (s : List WebhookLog) (l : WebhookLog) :
    addLog MAX s l = (l :: s).take MAX := by
  unfold addLog
  simp only []
  split
  · rfl
  · next h => rw [List.take_of_length_le (by omega)]

theorem take_append_take (n : Nat) (x y : List WebhookLog) :
    (x ++ y.take n).take n = (x ++ y).take n := by
  rw [List.take_append_eq_append_take, List.take_append_eq_append_take,
    List.take_take, Nat.min_eq_left (Nat.sub_le n x.length)]

/-- Folding insertions over the store: the result is the first `MAX`
entries of the reversed insertion sequence (prepended to the initial
store). -/
theorem foldl_addLog (MAX : Nat) :
    ∀ (ls s : List WebhookLog), s.length ≤ MAX →
      List.foldl (addLog MAX) s ls = (ls.reverse ++ s).take MAX := by
  intro ls
  induction ls with
  | nil =>
      intro s hs
      simpa using (List.take_of_length_le hs).symm
  | cons a rest ih =>
      intro s hs
      rw [List.foldl_cons, addLog_eq_take,
        ih ((a :: s).take MAX) (by simp),
        take_append_take, List.reverse_cons, List.append_assoc,
        List.singleton_append]

/-! ### C10 — the concurrent-delay counter never goes negative -/

/-- C10: for every sequence of `startTimeoutRequest` / `endTimeoutRequest`
calls — including more releases than admissions — the counter stays
non-negative, because `endTimeoutRequest` decrements only when the counter
is strictly positive. -/
theorem counter_never_negative (ops : List CounterOp) :
    ∀ c : Int, 0 ≤ c → 0 ≤ ops.foldl counterStep c := by
  induction ops with
  | nil => intro c hc; simpa using hc
  | cons op rest ih =>
      intro c hc
      rw [List.foldl_cons]
      apply ih
      cases op with
      | startReq =>
          simp only [counterStep, startTimeoutRequest]
          omega
      | endReq =>
          simp only [counterStep, endTimeoutRequest]
          split <;> omega

theorem counter_never_negative_witness :
    0 ≤ (0 : Int) ∧
      0 ≤ ([CounterOp.endReq, .endReq, .startReq, .endReq, .endReq].foldl counterStep 0) :=
  ⟨le_refl 0, counter_never_negative [.endReq, .endReq, .startReq, .endReq, .endReq] 0 (le_refl 0)⟩

/-! ### C3 — trim-on-insert keeps the MAX most recent records -/

/-- C3: after inserting `MAX + k` records (`k ≥ 0`) into the in-memory
backend with cap `MAX`, exactly `MAX` records remain, and they are the
`MAX` most recently inserted ones, newest first (the first `MAX` entries of
the reversed insertion sequence). -/
theorem trim_on_insert_keeps_most_recent (MAX : Nat) (ls : List WebhookLog)
    (hlen : MAX ≤ ls.length) :
    (List.foldl (addLog MAX) [] ls).length = MAX ∧
      List.foldl (addLog MAX) [] ls = ls.reverse.take MAX := by
  have h := foldl_addLog MAX ls [] (by simp)
  rw [List.append_nil] at h
  refine ⟨?_, h⟩
  rw [h, List.length_take, List.length_reverse]
  omega

theorem trim_on_insert_keeps_most_recent_witness :
    2 ≤ ([sampleLog "a", sampleLog "b", sampleLog "c"] : List WebhookLog).length ∧
      (List.foldl (addLog 2) [] [sampleLog "a", sampleLog "b", sampleLog "c"]).length = 2 ∧
      List.foldl (addLog 2) [] [sampleLog "a", sampleLog "b", sampleLog "c"]
        = [sampleLog "a", sampleLog "b", sampleLog "c"].reverse.take 2 :=
  ⟨by simp, trim_on_insert_keeps_most_recent 2 _ (by simp)⟩

/-! ### C5 — replay network failures (corrected) -/

/-- C5 counterexample: the claim says a replay whose outbound `fetch` fails
returns a response whose HTTP status is NOT 500; but the catch block of the
test endpoint (part_002 lines 72-81) returns its structured `success:false`
payload with `{ status: 500 }`. -/
theorem replay_network_failure_cex :
    (replayFetchResult (fun _ => none) (.error "fetch failed")).success = false ∧
      (replayFetchResult (fun _ => none) (.error "fetch failed")).status = 500 :=
  ⟨rfl, rfl⟩

/-- C5 amended: when the outbound replay fetch fails, the test endpoint
returns a structured body with `success:false`, the fixed error text and
the failure message — but the HTTP status of that response is 500. -/
theorem replay_network_failure_structured (jsonParse : String → Option JsonValue)
    (e : String) :
    (replayFetchResult jsonParse (.error e)).success = false ∧
      (replayFetchResult jsonParse (.error e)).message = some e ∧
      (replayFetchResult jsonParse (.error e)).error = some "Failed to replay webhook" ∧
      (replayFetchResult jsonParse (.error e)).status = 500 :=
  ⟨rfl, rfl, rfl, rfl⟩

/-! ### C6 — DELETE /logs with a webhookId parameter (corrected) -/

/-- C6 counterexample: the claim says `DELETE /logs?webhookId=A` removes
only the records with `webhookId = A`; but the route never reads the
parameter and clears the whole store, so a record with `webhookId = B` does
not remain. -/
theorem delete_logs_webhookId_cex :
    sampleLog "b" "t" (some "B")
        ∈ [sampleLog "a" "t" (some "A"), sampleLog "b" "t" (some "B")] ∧
      (sampleLog "b" "t" (some "B")).webhookId ≠ some "A" ∧
      (deleteLogsRoute true
          [sampleLog "a" "t" (some "A"), sampleLog "b" "t" (some "B")] (some "A")).2
        = [] := by
  refine ⟨?_, by simp [sampleLog], rfl⟩
  simp

/-- C6 amended: the `DELETE /logs` route clears the whole store regardless
of the `webhookId` query parameter (it calls `clearWebhookLogs()`, which
forwards no filter); only the storage-level `clearLogs(webhookId)` removes
exactly the matching records, keeping every other record in order. -/
theorem delete_logs_and_clear_behavior (webhookLogs : List WebhookLog)
    (wid : String) (webhookIdParam : Option String) :
    (deleteLogsRoute true webhookLogs webhookIdParam).2 = [] ∧
      clearLogs webhookLogs (some wid)
        = webhookLogs.filter (fun l => !(l.webhookId == some wid)) := by
  refine ⟨rfl, ?_⟩
  induction webhookLogs with
  | nil => rfl
  | cons l rest ih =>
      by_cases h : l.webhookId == some wid
      · simp [clearLogs, clearLogsLoop, h, List.filter_cons] at *
        exact ih
      · simp [clearLogs, clearLogsLoop, h, List.filter_cons] at *
        exact ih

/-! ### C7 — list ordering (corrected) -/

/-- C7 counterexample: the in-memory backend keeps reverse insertion order
and never compares timestamps; inserting a later-stamped record before an
earlier-stamped one leaves `getLogs` unsorted by timestamp. -/
theorem getLogs_not_sorted_by_timestamp_cex :
    ¬ sortedNewestFirst
        (getLogs (List.foldl (addLog 1000) []
            [sampleLog "l1" "2024-01-02T00:00:00.000Z",
             sampleLog "l2" "2024-01-01T00:00:00.000Z"]) none) := by
  decide

/-- C7 amended: `MemoryStorage.getLogs` returns the records in reverse
insertion order (newest insertion first, the first `MAX` of the reversed
sequence), optionally filtered to one `webhookId`; this is sorted
newest-first by timestamp whenever the records were inserted in
chronological (non-decreasing timestamp) order, as the capture pipeline
does. -/
theorem getLogs_reverse_insertion_sorted (MAX : Nat) (ls : List WebhookLog)
    (wid : Option String)
    (hchrono : ls.Pairwise (fun a b => tsLe a.timestamp b.timestamp = true)) :
    getLogs (List.foldl (addLog MAX) [] ls) wid = getLogs (ls.reverse.take MAX) wid ∧
      sortedNewestFirst (getLogs (List.foldl (addLog MAX) [] ls) wid) := by
  have hfold := foldl_addLog MAX ls [] (by simp)
  rw [List.append_nil] at hfold
  refine ⟨by rw [hfold], ?_⟩
  rw [hfold]
  have hrev : ls.reverse.Pairwise (fun a b => tsLe b.timestamp a.timestamp = true) := by
    rw [List.pairwise_reverse]
    exact hchrono
  have htake : (ls.reverse.take MAX).Pairwise
      (fun a b => tsLe b.timestamp a.timestamp = true) :=
    hrev.sublist (List.take_sublist _ _)
  cases wid with
  | none => exact htake
  | some w => exact htake.sublist (List.filter_sublist _)

theorem getLogs_reverse_insertion_sorted_witness :
    ([sampleLog "l1" "2024-01-01T00:00:00.000Z",
      sampleLog "l2" "2024-01-02T00:00:00.000Z"] : List WebhookLog).Pairwise
        (fun a b => tsLe a.timestamp b.timestamp = true) ∧
      (getLogs (List.foldl (addLog 1000) []
          [sampleLog "l1" "2024-01-01T00:00:00.000Z",
           sampleLog "l2" "2024-01-02T00:00:00.000Z"]) none
        = getLogs ([sampleLog "l1" "2024-01-01T00:00:00.000Z",
            sampleLog "l2" "2024-01-02T00:00:00.000Z"].reverse.take 1000) none ∧
      sortedNewestFirst
        (getLogs (List.foldl (addLog 1000) []
          [sampleLog "l1" "2024-01-01T00:00:00.000Z",
           sampleLog "l2" "2024-01-02T00:00:00.000Z"]) none)) :=
  ⟨by decide, getLogs_reverse_insertion_sorted 1000 _ none (by decide)⟩

/-! ### C2 — pagination -/

/-- For `1 ≤ ps`, chunking a list into `ps`-sized windows and joining the
first `n` of them gives the first `n * ps` elements. -/
theorem join_chunks (ps : Nat) (l : List WebhookLog) :
    ∀ n : Nat, ((List.range n).map (fun i => (l.drop (i * ps)).take ps)).flatten
      = l.take (n * ps) := by
  intro n
  induction n with
  | zero => simp
  | succ n ih =>
      rw [List.range_succ, List.map_append, List.flatten_append, ih]
      simp only [List.map_cons, List.map_nil, List.flatten_cons, List.flatten_nil,
        List.append_nil]
      rw [Nat.succ_mul, List.take_add]

/-- `a ≤ ⌈a / ps⌉ * ps` for `ps ≥ 1`. -/
theorem le_ceil_mul (a ps : Nat) (hps : 1 ≤ ps) : a ≤ ((a + ps - 1) / ps) * ps := by
  rcases Nat.eq_zero_or_pos a with rfl | ha
  · simp
  · have h1 : a + ps - 1 = (a - 1) + ps := by omega
    rw [h1, Nat.add_div_right _ (by omega)]
    have h2 : (a - 1) < ((a - 1) / ps + 1) * ps :=
      (Nat.div_lt_iff_lt_mul (by omega : 0 < ps)).mp (by omega)
    omega

/-- Filtering first and paginating without a filter is the same as
paginating with the filter. -/
theorem getLogsPaginated_some (webhookLogs : List WebhookLog) (page : Int)
    (pageSize : Nat) (w : String) :
    getLogsPaginated webhookLogs page pageSize (some w)
      = getLogsPaginated (getLogs webhookLogs (some w)) page pageSize none := rfl

set_option maxRecDepth 8000 in
/-- Pagination over an already-filtered list: ceiling page count, clamped
page, `hasMore`, and the partition property. -/
theorem pagination_core (filtered : List WebhookLog) (page : Int)
    (ps : Nat) (hps : 1 <= ps) :
    (getLogsPaginated filtered page ps none).totalPages
        = (getLogsPaginated filtered page ps none).total ⌈/⌉ ps ∧
      (getLogsPaginated filtered page ps none).page
        = max 1 (min page ((getLogsPaginated filtered page ps none).totalPages : Int)) ∧
      ((getLogsPaginated filtered page ps none).hasMore = true ↔
        (getLogsPaginated filtered page ps none).page
          < ((getLogsPaginated filtered page ps none).totalPages : Int)) ∧
      ((List.range (getLogsPaginated filtered page ps none).totalPages).map
          (fun (i : Nat) => (getLogsPaginated filtered ((i : Int) + 1) ps none).logs)).flatten
        = filtered := by
  have hpages : ∀ i : Nat, i < (filtered.length + ps - 1) / ps →
      (getLogsPaginated filtered ((i : Int) + 1) ps none).logs
        = (filtered.drop (i * ps)).take ps := by
    intro i hi
    have hclamp : max 1 (min ((i : Int) + 1)
        (((filtered.length + ps - 1) / ps : Nat) : Int)) = (i : Int) + 1 := by
      omega
    have hstart : (((i : Int) + 1) - 1).toNat = i := by omega
    simp only [getLogsPaginated, hclamp, hstart]
  refine ⟨rfl, rfl, ?_, ?_⟩
  · simp only [getLogsPaginated]
    exact decide_eq_true_iff
  · calc ((List.range (getLogsPaginated filtered page ps none).totalPages).map
            (fun (i : Nat) => (getLogsPaginated filtered ((i : Int) + 1) ps none).logs)).flatten
        = ((List.range ((filtered.length + ps - 1) / ps)).map
            (fun i => (filtered.drop (i * ps)).take ps)).flatten := by
          congr 1
          exact List.map_congr_left (fun i hi => hpages i (List.mem_range.mp hi))
      _ = filtered.take (((filtered.length + ps - 1) / ps) * ps) :=
          join_chunks ps filtered _
      _ = filtered := List.take_of_length_le (le_ceil_mul _ _ hps)

/-- C2: for every store, filter and `pageSize ≥ 1`: `totalPages` is the
ceiling of `total / pageSize`, the requested page is clamped as
`max 1 (min page totalPages)`, `hasMore` holds exactly when the clamped
page is below `totalPages`, and concatenating the pages `1..totalPages` in
order reproduces the full (filtered) list, each record exactly once. -/
theorem pagination_pages_partition (webhookLogs : List WebhookLog) (page : Int)
    (pageSize : Nat) (wid : Option String) (hps : 1 <= pageSize) :
    (getLogsPaginated webhookLogs page pageSize wid).totalPages
        = (getLogsPaginated webhookLogs page pageSize wid).total ⌈/⌉ pageSize ∧
      (getLogsPaginated webhookLogs page pageSize wid).page
        = max 1 (min page ((getLogsPaginated webhookLogs page pageSize wid).totalPages : Int)) ∧
      ((getLogsPaginated webhookLogs page pageSize wid).hasMore = true ↔
        (getLogsPaginated webhookLogs page pageSize wid).page
          < ((getLogsPaginated webhookLogs page pageSize wid).totalPages : Int)) ∧
      ((List.range (getLogsPaginated webhookLogs page pageSize wid).totalPages).map
          (fun (i : Nat) => (getLogsPaginated webhookLogs ((i : Int) + 1) pageSize wid).logs)).flatten
        = getLogs webhookLogs wid := by
  cases wid with
  | none => exact pagination_core webhookLogs page pageSize hps
  | some w =>
      simp only [getLogsPaginated_some]
      exact pagination_core (getLogs webhookLogs (some w)) page pageSize hps

theorem pagination_pages_partition_witness :
    1 ≤ 2 ∧
      ((getLogsPaginated [sampleLog "a", sampleLog "b", sampleLog "c"] 5 2 none).totalPages
          = (getLogsPaginated [sampleLog "a", sampleLog "b", sampleLog "c"] 5 2 none).total ⌈/⌉ 2 ∧
        (getLogsPaginated [sampleLog "a", sampleLog "b", sampleLog "c"] 5 2 none).page
          = max 1 (min 5
              ((getLogsPaginated [sampleLog "a", sampleLog "b", sampleLog "c"] 5 2 none).totalPages : Int)) ∧
        ((getLogsPaginated [sampleLog "a", sampleLog "b", sampleLog "c"] 5 2 none).hasMore = true ↔
          (getLogsPaginated [sampleLog "a", sampleLog "b", sampleLog "c"] 5 2 none).page
            < ((getLogsPaginated [sampleLog "a", sampleLog "b", sampleLog "c"] 5 2 none).totalPages : Int)) ∧
        ((List.range (getLogsPaginated [sampleLog "a", sampleLog "b", sampleLog "c"] 5 2 none).totalPages).map
            (fun (i : Nat) => (getLogsPaginated [sampleLog "a", sampleLog "b", sampleLog "c"]
              ((i : Int) + 1) 2 none).logs)).flatten
          = getLogs [sampleLog "a", sampleLog "b", sampleLog "c"] none) :=
  ⟨by norm_num, pagination_pages_partition [sampleLog "a", sampleLog "b", sampleLog "c"] 5 2 none (by norm_num)⟩

/-! ### C4 — the fixed-window rate limiter -/

/-- The rate-limit store after `k` consecutive checks for the same
identifier, all at time `now`, starting from an empty store. -/
def rateStoreAfter (cfg : SecurityConfig) (identifier : String) (now : Int) :
    Nat → RateLimitStore
  | 0 => []
  | k + 1 => (checkRateLimit cfg (rateStoreAfter cfg identifier now k) identifier now).2

/-- The result of the `(k+1)`-th consecutive check (0-indexed `k`). -/
def rateResultOfCheck (cfg : SecurityConfig) (identifier : String) (now : Int)
    (k : Nat) : RateLimitResult :=
  (checkRateLimit cfg (rateStoreAfter cfg identifier now k) identifier now).1

theorem rlGet_single (identifier : String) (e : RateLimitEntry) :
    rlGet [(identifier, e)] identifier = some e := by
  simp [rlGet]

theorem rlSet_single (identifier : String) (e v : RateLimitEntry) :
    rlSet [(identifier, e)] identifier v = [(identifier, v)] := by
  simp [rlSet]

/-- Within one window (all checks at time `now`, window length ≥ 0), after
`k ∈ [1, N]` checks the store holds a single entry with count `k`. -/
theorem rateStoreAfter_eq (cfg : SecurityConfig) (identifier : String) (now : Int)
    (hW : 0 ≤ cfg.RATE_LIMIT_WINDOW_MS) :
    ∀ k : Nat, 1 ≤ k → (k : Int) ≤ cfg.RATE_LIMIT_REQUESTS →
      rateStoreAfter cfg identifier now k
        = [(identifier, ⟨(k : Int), now + cfg.RATE_LIMIT_WINDOW_MS⟩)] := by
  intro k
  induction k with
  | zero => omega
  | succ k ih =>
      intro _ hk
      rcases Nat.eq_zero_or_pos k with rfl | hkpos
      · simp [rateStoreAfter, checkRateLimit, rlGet, rlSet]
      · rw [rateStoreAfter, ih hkpos (by omega)]
        simp only [checkRateLimit, rlGet_single]
        rw [if_neg (by omega), if_neg (by omega), rlSet_single]
        push_cast
        ring_nf

/-- C4: for ceiling `N ≥ 1` and window `W ≥ 0`, the first `N` checks for an
identifier within one window are allowed with the reported remaining quota
`N - (k+1)` (decreasing to 0); the `(N+1)`-th check in the same window is
rejected; and the first check after the window has expired
(`now' > now + W`) is allowed again with a fresh window of count 1 and full
quota `N - 1` restored. -/
theorem rate_limiter_fixed_window (cfg : SecurityConfig) (identifier : String)
    (now now' : Int) (hN : 1 ≤ cfg.RATE_LIMIT_REQUESTS)
    (hW : 0 ≤ cfg.RATE_LIMIT_WINDOW_MS)
    (hexp : now + cfg.RATE_LIMIT_WINDOW_MS < now') :
    (∀ k : Nat, (k : Int) < cfg.RATE_LIMIT_REQUESTS →
        (rateResultOfCheck cfg identifier now k).allowed = true ∧
          (rateResultOfCheck cfg identifier now k).remaining
            = cfg.RATE_LIMIT_REQUESTS - ((k : Int) + 1)) ∧
      (rateResultOfCheck cfg identifier now cfg.RATE_LIMIT_REQUESTS.toNat).allowed
          = false ∧
      (checkRateLimit cfg
          (rateStoreAfter cfg identifier now (cfg.RATE_LIMIT_REQUESTS.toNat + 1))
          identifier now').1.allowed = true ∧
      (checkRateLimit cfg
          (rateStoreAfter cfg identifier now (cfg.RATE_LIMIT_REQUESTS.toNat + 1))
          identifier now').1.remaining = cfg.RATE_LIMIT_REQUESTS - 1 ∧
      (checkRateLimit cfg
          (rateStoreAfter cfg identifier now (cfg.RATE_LIMIT_REQUESTS.toNat + 1))
          identifier now').2
        = [(identifier, ⟨1, now' + cfg.RATE_LIMIT_WINDOW_MS⟩)] := by
  have hsatN : rateStoreAfter cfg identifier now cfg.RATE_LIMIT_REQUESTS.toNat
      = [(identifier, ⟨cfg.RATE_LIMIT_REQUESTS, now + cfg.RATE_LIMIT_WINDOW_MS⟩)] := by
    have := rateStoreAfter_eq cfg identifier now hW cfg.RATE_LIMIT_REQUESTS.toNat
      (by omega) (by omega)
    rwa [Int.toNat_of_nonneg (by omega)] at this
  have hrejStore : rateStoreAfter cfg identifier now (cfg.RATE_LIMIT_REQUESTS.toNat + 1)
      = [(identifier, ⟨cfg.RATE_LIMIT_REQUESTS, now + cfg.RATE_LIMIT_WINDOW_MS⟩)] := by
    rw [rateStoreAfter, hsatN]
    simp only [checkRateLimit, rlGet_single]
    rw [if_neg (by omega), if_pos (by omega)]
  refine ⟨?_, ?_, ?_⟩
  · intro k hk
    rcases Nat.eq_zero_or_pos k with rfl | hkpos
    · constructor
      · simp [rateResultOfCheck, rateStoreAfter, checkRateLimit, rlGet]
      · simp [rateResultOfCheck, rateStoreAfter, checkRateLimit, rlGet]
    · rw [rateResultOfCheck, rateStoreAfter_eq cfg identifier now hW k hkpos (by omega)]
      simp only [checkRateLimit, rlGet_single]
      rw [if_neg (by omega), if_neg (by omega)]
      constructor
      · rfl
      · push_cast
        ring_nf
  · rw [rateResultOfCheck, hsatN]
    simp only [checkRateLimit, rlGet_single]
    rw [if_neg (by omega), if_pos (by omega)]
  · rw [hrejStore]
    simp only [checkRateLimit, rlGet_single]
    rw [if_pos (by omega), rlSet_single]
    exact ⟨rfl, rfl, rfl⟩

theorem rate_limiter_fixed_window_witness :
    (1 : Int) ≤ 2 ∧ (0 : Int) ≤ 1000 ∧ (0 : Int) + 1000 < 5000 ∧
      ((∀ k : Nat,
          (k : Int) < ({ RATE_LIMIT_REQUESTS := 2, RATE_LIMIT_WINDOW_MS := 1000 } : SecurityConfig).RATE_LIMIT_REQUESTS →
          (rateResultOfCheck { RATE_LIMIT_REQUESTS := 2, RATE_LIMIT_WINDOW_MS := 1000 } "1.2.3.4" 0 k).allowed = true ∧
            (rateResultOfCheck { RATE_LIMIT_REQUESTS := 2, RATE_LIMIT_WINDOW_MS := 1000 } "1.2.3.4" 0 k).remaining
              = ({ RATE_LIMIT_REQUESTS := 2, RATE_LIMIT_WINDOW_MS := 1000 } : SecurityConfig).RATE_LIMIT_REQUESTS - ((k : Int) + 1)) ∧
        (rateResultOfCheck { RATE_LIMIT_REQUESTS := 2, RATE_LIMIT_WINDOW_MS := 1000 } "1.2.3.4" 0
            (2 : Int).toNat).allowed = false ∧
        (checkRateLimit { RATE_LIMIT_REQUESTS := 2, RATE_LIMIT_WINDOW_MS := 1000 }
            (rateStoreAfter { RATE_LIMIT_REQUESTS := 2, RATE_LIMIT_WINDOW_MS := 1000 } "1.2.3.4" 0 ((2 : Int).toNat + 1))
            "1.2.3.4" 5000).1.allowed = true ∧
        (checkRateLimit { RATE_LIMIT_REQUESTS := 2, RATE_LIMIT_WINDOW_MS := 1000 }
            (rateStoreAfter { RATE_LIMIT_REQUESTS := 2, RATE_LIMIT_WINDOW_MS := 1000 } "1.2.3.4" 0 ((2 : Int).toNat + 1))
            "1.2.3.4" 5000).1.remaining
          = ({ RATE_LIMIT_REQUESTS := 2, RATE_LIMIT_WINDOW_MS := 1000 } : SecurityConfig).RATE_LIMIT_REQUESTS - 1 ∧
        (checkRateLimit { RATE_LIMIT_REQUESTS := 2, RATE_LIMIT_WINDOW_MS := 1000 }
            (rateStoreAfter { RATE_LIMIT_REQUESTS := 2, RATE_LIMIT_WINDOW_MS := 1000 } "1.2.3.4" 0 ((2 : Int).toNat + 1))
            "1.2.3.4" 5000).2
          = [("1.2.3.4", ⟨1, 5000 + ({ RATE_LIMIT_REQUESTS := 2, RATE_LIMIT_WINDOW_MS := 1000 } : SecurityConfig).RATE_LIMIT_WINDOW_MS⟩)]) :=
  ⟨by norm_num, by norm_num, by norm_num,
    rate_limiter_fixed_window { RATE_LIMIT_REQUESTS := 2, RATE_LIMIT_WINDOW_MS := 1000 }
      "1.2.3.4" 0 5000 (by norm_num) (by norm_num) (by norm_num)⟩

/-! ### C1 — statusCode propagation through the capture pipeline -/

/-- The inline status-code computation of the handler matches the spec's
description (the only difference is JS truthiness on the raw parameter:
the empty string is falsy, and `parseInt("")` is `NaN` — both give 200). -/
theorem validStatusCodeOf_eq_spec (p : Option String) :
    validStatusCodeOf p = specStatusCode p := by
  cases p with
  | none => rfl
  | some s =>
      by_cases h : s == ""
      · have hs : s = "" := by simpa using h
        subst hs
        decide
      · simp [validStatusCodeOf, specStatusCode, truthy, h]

/-- C1: whenever a capture request reaches the body-capture stage (auth,
rate limit, size pre-check, concurrency guard pass and the wait does not
raise) and the body is not oversized, the HTTP status of the response and
the `statusCode` of the stored record both equal the parsed `statusCode`
query value when it is an integer in `[100, 599]`, and 200 for every other
value (non-numeric, out of range, or absent) — i.e. `specStatusCode`. -/
theorem capture_statusCode_propagation (cfg : SecurityConfig) (env : Env)
    (st : ServerState) (req : CaptureRequest) (method : String)
    (hauth : req.authOk = true)
    (hrate : (checkRateLimit cfg st.rateStore (getClientIP req.headers) env.now).1.allowed
      = true)
    (hsize : preSizeReject cfg req.headers = false)
    (hcan : canStartTimeoutRequest cfg st.activeTimeoutRequests = true)
    (hsleep : env.sleepRaises = false)
    (hbody : (captureBody cfg env req
        ((lookupParam req.headers "content-type").getD "")).isOk = true) :
    (handleWebhook cfg env st req method).status
        = specStatusCode (lookupParam req.query "statusCode") ∧
      ∃ log, (handleWebhook cfg env st req method).storedLog = some log ∧
        log.statusCode = specStatusCode (lookupParam req.query "statusCode") := by
  rcases hcb : captureBody cfg env req ((lookupParam req.headers "content-type").getD "")
    with m | body
  · rw [hcb] at hbody
    simp [BodyCapture.isOk] at hbody
  · simp only [handleWebhook, hauth, hrate, hsize, hcan, hsleep, hcb, delayWindowBlock,
      Bool.not_true, Bool.and_false, if_false, ite_false, Bool.false_eq_true]
    by_cases ht : validTimeoutSecondsOf cfg (lookupParam req.query "timeout") > 0
    · simp only [ht, decide_True, Bool.true_and, if_true, ite_true, if_false,
        Bool.false_eq_true, validStatusCodeOf_eq_spec]
      exact ⟨trivial, _, rfl, rfl⟩
    · simp only [ht, decide_False, Bool.false_and, if_false, ite_false,
        Bool.false_eq_true, validStatusCodeOf_eq_spec]
      exact ⟨trivial, _, rfl, rfl⟩

/-- Concrete inputs for the capture-pipeline witnesses. -/
def cfgW : SecurityConfig := {}

def envW : Env := {}

def stW : ServerState := {}

def req1 : CaptureRequest :=
  { url := "http://localhost/webhooks/orders?statusCode=503"
    slug := ["orders"]
    query := [("statusCode", "503")]
    headers := [("content-type", "application/json")]
    bodyText := "not json" }

theorem capture_statusCode_propagation_witness :
    (req1.authOk = true ∧
      (checkRateLimit cfgW stW.rateStore (getClientIP req1.headers) envW.now).1.allowed
          = true ∧
      preSizeReject cfgW req1.headers = false ∧
      canStartTimeoutRequest cfgW stW.activeTimeoutRequests = true ∧
      envW.sleepRaises = false ∧
      (captureBody cfgW envW req1
          ((lookupParam req1.headers "content-type").getD "")).isOk = true) ∧
    ((handleWebhook cfgW envW stW req1 "POST").status
        = specStatusCode (lookupParam req1.query "statusCode") ∧
      ∃ log, (handleWebhook cfgW envW stW req1 "POST").storedLog = some log ∧
        log.statusCode = specStatusCode (lookupParam req1.query "statusCode")) :=
  ⟨⟨by decide, by decide, by decide, by decide, by decide, by decide⟩,
    capture_statusCode_propagation cfgW envW stW req1 "POST" (by decide) (by decide)
      (by decide) (by decide) (by decide) (by decide)⟩

/-! ### C8 — the concurrent-delay guard -/

/-- C8: for a request with a validated timeout > 0 that passed the earlier
guards: if the counter is at the ceiling the request is rejected with 503
and the counter is unchanged; otherwise the incremented counter stays
within the ceiling, the delay window returns the counter to its
pre-admission value on both exit paths (normal completion and exception),
and the handler's final counter equals the initial one. -/
theorem delay_guard_accounting (cfg : SecurityConfig) (env : Env)
    (st : ServerState) (req : CaptureRequest) (method : String)
    (hauth : req.authOk = true)
    (hrate : (checkRateLimit cfg st.rateStore (getClientIP req.headers) env.now).1.allowed
      = true)
    (hsize : preSizeReject cfg req.headers = false)
    (htimeout : 0 < validTimeoutSecondsOf cfg (lookupParam req.query "timeout")) :
    (canStartTimeoutRequest cfg st.activeTimeoutRequests = false →
        (handleWebhook cfg env st req method).status = 503 ∧
        (handleWebhook cfg env st req method).finalState.activeTimeoutRequests
          = st.activeTimeoutRequests) ∧
    (canStartTimeoutRequest cfg st.activeTimeoutRequests = true →
      0 ≤ st.activeTimeoutRequests →
        startTimeoutRequest st.activeTimeoutRequests
            ≤ cfg.MAX_CONCURRENT_TIMEOUT_REQUESTS ∧
        (∀ f : Bool, (delayWindowBlock st.activeTimeoutRequests f).1
            = st.activeTimeoutRequests) ∧
        (handleWebhook cfg env st req method).finalState.activeTimeoutRequests
          = st.activeTimeoutRequests) := by
  constructor
  · intro hcanF
    simp only [handleWebhook, hauth, hrate, hsize, hcanF, Bool.not_true, Bool.not_false,
      Bool.false_eq_true, if_false, gt_iff_lt, htimeout, decide_True, Bool.true_and,
      Bool.and_true, if_true]
    exact ⟨trivial, trivial⟩
  · intro hcanT hc0
    have h1 : endTimeoutRequest (startTimeoutRequest st.activeTimeoutRequests)
        = st.activeTimeoutRequests := by
      unfold startTimeoutRequest endTimeoutRequest
      rw [if_pos (by omega)]
      omega
    refine ⟨?_, ?_, ?_⟩
    · simp only [canStartTimeoutRequest, decide_eq_true_eq] at hcanT
      unfold startTimeoutRequest
      omega
    · intro f
      simp only [delayWindowBlock, h1]
    · simp only [handleWebhook, hauth, hrate, hsize, hcanT, Bool.not_true, Bool.and_false,
        Bool.false_eq_true, if_false, gt_iff_lt, htimeout, decide_True, Bool.true_and,
        if_true, delayWindowBlock, h1]
      split
      · rfl
      · split <;> rfl

def req8 : CaptureRequest :=
  { url := "http://localhost/webhooks/slow?timeout=5"
    slug := ["slow"]
    query := [("timeout", "5")] }

theorem delay_guard_accounting_witness :
    (req8.authOk = true ∧
      (checkRateLimit cfgW stW.rateStore (getClientIP req8.headers) envW.now).1.allowed
          = true ∧
      preSizeReject cfgW req8.headers = false ∧
      0 < validTimeoutSecondsOf cfgW (lookupParam req8.query "timeout")) ∧
    ((canStartTimeoutRequest cfgW stW.activeTimeoutRequests = false →
        (handleWebhook cfgW envW stW req8 "GET").status = 503 ∧
        (handleWebhook cfgW envW stW req8 "GET").finalState.activeTimeoutRequests
          = stW.activeTimeoutRequests) ∧
      (canStartTimeoutRequest cfgW stW.activeTimeoutRequests = true →
        0 ≤ stW.activeTimeoutRequests →
          startTimeoutRequest stW.activeTimeoutRequests
              ≤ cfgW.MAX_CONCURRENT_TIMEOUT_REQUESTS ∧
          (∀ f : Bool, (delayWindowBlock stW.activeTimeoutRequests f).1
              = stW.activeTimeoutRequests) ∧
          (handleWebhook cfgW envW stW req8 "GET").finalState.activeTimeoutRequests
            = stW.activeTimeoutRequests)) :=
  ⟨⟨by decide, by decide, by decide, by decide⟩,
    delay_guard_accounting cfgW envW stW req8 "GET" (by decide) (by decide) (by decide)
      (by decide)⟩

/-! ### C9 — malformed JSON is absorbed -/

/-- C9: a capture request with JSON content type whose body is within the
size cap but fails to parse still succeeds: the stored record's body is
`null`, the record is persisted into the store, and the response is the
normal success envelope carrying the chosen status code. -/
theorem malformed_json_absorbed (cfg : SecurityConfig) (env : Env)
    (st : ServerState) (req : CaptureRequest) (method : String)
    (hauth : req.authOk = true)
    (hrate : (checkRateLimit cfg st.rateStore (getClientIP req.headers) env.now).1.allowed
      = true)
    (hsize : preSizeReject cfg req.headers = false)
    (hcan : canStartTimeoutRequest cfg st.activeTimeoutRequests = true)
    (hsleep : env.sleepRaises = false)
    (hread : req.bodyReadFails = false)
    (hct : strIncludes ((lookupParam req.headers "content-type").getD "")
        "application/json" = true)
    (hsize2 : validatePayloadSize (req.bodyText.length : Int) cfg.MAX_JSON_SIZE = true)
    (hparse : env.jsonParse req.bodyText = none) :
    (handleWebhook cfg env st req method).success = true ∧
      (handleWebhook cfg env st req method).status
        = validStatusCodeOf (lookupParam req.query "statusCode") ∧
      (handleWebhook cfg env st req method).echoedBody = some .null ∧
      ∃ log, (handleWebhook cfg env st req method).storedLog = some log ∧
        log.body = .null ∧
        (handleWebhook cfg env st req method).finalState.logs
          = addLog env.maxLogs st.logs log := by
  have hcb : captureBody cfg env req ((lookupParam req.headers "content-type").getD "")
      = .ok .null := by
    unfold captureBody
    rw [hread, hct, hsize2, hparse]
    simp
  simp only [handleWebhook, hauth, hrate, hsize, hcan, hsleep, hcb, delayWindowBlock,
    Bool.not_true, Bool.and_false, Bool.false_eq_true, if_false, ite_false]
  by_cases ht : validTimeoutSecondsOf cfg (lookupParam req.query "timeout") > 0
  · simp only [ht, decide_True, Bool.true_and, if_true, ite_true, if_false,
      Bool.false_eq_true]
    refine ⟨?_, ?_, ?_, _, rfl, ?_, ?_⟩ <;> trivial
  · simp only [ht, decide_False, Bool.false_and, if_false, ite_false,
      Bool.false_eq_true]
    refine ⟨?_, ?_, ?_, _, rfl, ?_, ?_⟩ <;> trivial

theorem malformed_json_absorbed_witness :
    (req1.authOk = true ∧
      (checkRateLimit cfgW stW.rateStore (getClientIP req1.headers) envW.now).1.allowed
          = true ∧
      preSizeReject cfgW req1.headers = false ∧
      canStartTimeoutRequest cfgW stW.activeTimeoutRequests = true ∧
      envW.sleepRaises = false ∧
      req1.bodyReadFails = false ∧
      strIncludes ((lookupParam req1.headers "content-type").getD "")
          "application/json" = true ∧
      validatePayloadSize (req1.bodyText.length : Int) cfgW.MAX_JSON_SIZE = true ∧
      envW.jsonParse req1.bodyText = none) ∧
    ((handleWebhook cfgW envW stW req1 "PUT").success = true ∧
      (handleWebhook cfgW envW stW req1 "PUT").status
        = validStatusCodeOf (lookupParam req1.query "statusCode") ∧
      (handleWebhook cfgW envW stW req1 "PUT").echoedBody = some .null ∧
      ∃ log, (handleWebhook cfgW envW stW req1 "PUT").storedLog = some log ∧
        log.body = .null ∧
        (handleWebhook cfgW envW stW req1 "PUT").finalState.logs
          = addLog envW.maxLogs stW.logs log) :=
  ⟨⟨by decide, by decide, by decide, by decide, by decide, by decide, by decide,
      by decide, rfl⟩,
    malformed_json_absorbed cfgW envW stW req1 "PUT" (by decide) (by decide) (by decide)
      (by decide) (by decide) (by decide) (by decide) (by decide) rfl⟩

end MockWebhooks
